import Mathlib

/-!
# Verification of the GSC data-pull core (src/gsc.py)

A shallow embedding of the data-processing core of `src/gsc.py`:

* `fetch_gsc_data` (lines 163-188): the page fetcher,
* `process_gsc_api_response` (lines 191-242): the record normalizer,
* `aggregate_monthly_data` (lines 252-273, inner function of
  `calculate_mom_metrics`): the monthly aggregator,
* `calculate_mom_metrics` (lines 244-332): the month-over-month comparator.

Modelling conventions:

* pandas float cells are modelled as `Option ℚ` (`none` = NaN) or, inside the
  MoM metric loop where `fillna(float('inf'))` appears, as `ExtFloat`
  (ℚ extended with `inf`, `ninf` and `nan`).
* a DataFrame is a list of typed rows together with column-presence flags for
  the columns whose presence the code tests (`'page' in df.columns`, the
  `metric_col not in df.columns` defaults, and so on).
* Python exceptions are modelled with `Except`: the blanket
  `try ... except Exception` handlers of `process_gsc_api_response` and
  `calculate_mom_metrics` become a `match` on the inner computation that maps
  every error to the empty DataFrame (modelled as the empty row list).
* in-place mutation of a caller's DataFrame (the aggregator's
  `df[metric_col] = ...` writes happen on the caller's object) is modelled by
  returning the final state of the argument next to the result.
-/

/-! ## Calendar periods and dates -/

/-- A pandas monthly `Period` (`df['date'].dt.to_period('M')`): a year/month
pair.  `month` is 1-based. -/
structure Period where
  year : Nat
  month : Nat
deriving DecidableEq, Repr

/-- Pandas `Period + 1`: the next calendar month, rolling over at
December. -/
def Period.next (p : Period) : Period :=
  if p.month = 12 then { year := p.year + 1, month := 1 }
  else { year := p.year, month := p.month + 1 }

/-- A calendar date, the parse result of the `date` dimension value. -/
structure CalDate where
  year : Nat
  month : Nat
  day : Nat
deriving DecidableEq, Repr

def isLeapYear (y : Nat) : Bool :=
  (y % 4 == 0 && y % 100 != 0) || y % 400 == 0

def daysInMonth (y m : Nat) : Nat :=
  if m = 2 then (if isLeapYear y then 29 else 28)
  else if m = 4 ∨ m = 6 ∨ m = 9 ∨ m = 11 then 30
  else 31

/-- Split a character list at every dash (the list-level counterpart of
`s.split('-')`, written structurally so it computes by reduction). -/
def splitOnDash : List Char → List Char → List (List Char)
  | [], acc => [acc.reverse]
  | c :: rest, acc =>
    if c = '-' then acc.reverse :: splitOnDash rest []
    else splitOnDash rest (c :: acc)

/-- Parse a nonempty all-digit character list as a natural number (the
list-level counterpart of `int(s)` with failure on anything else). -/
def charsToNat? (cs : List Char) : Option Nat :=
  if cs.isEmpty then none
  else if cs.all (fun c => c.isDigit) then
    some (cs.foldl (fun acc c => acc * 10 + (c.toNat - 48)) 0)
  else none

/-- Model of `pd.to_datetime(s, errors='coerce')` on a GSC `date` dimension
value (`YYYY-MM-DD`): `none` models `NaT` (the parse failure that line 223
drops).  The GSC API emits dates in ISO `YYYY-MM-DD` form only, so the model
covers that grammar (split at dashes, three numeric components, month and
day in calendar range); a string outside it coerces to `NaT`. -/
def parseGscDate (s : String) : Option CalDate :=
  match splitOnDash s.data [] with
  | [ys, ms, ds] =>
    match charsToNat? ys, charsToNat? ms, charsToNat? ds with
    | some y, some m, some d =>
      if 1 ≤ m ∧ m ≤ 12 ∧ 1 ≤ d ∧ d ≤ daysInMonth y m then
        some { year := y, month := m, day := d }
      else none
    | _, _, _ => none
  | _ => none

/-- Line 228, `date.dt.to_period('M')`. -/
def CalDate.toPeriod (d : CalDate) : Period :=
  { year := d.year, month := d.month }

/-! ## The page fetcher: `fetch_gsc_data` (lines 163-188)

The function builds one request body (with `rowLimit` and *no* `startRow`
field, so the API serves from offset 0), issues a single
`searchanalytics().query(...).execute()` call, and returns
`response.get('rows', [])`.  Any exception from the call is caught by the
`except Exception` handler at line 181, which displays an error and returns
`[]` (for faults whose message mentions a revoked credential it also reruns
the app; the classified API faults modelled here - rate limiting and
transport errors - do not carry such messages).  There is no loop, no offset
cursor and no retry. -/

/-- The classified faults a query executor can raise (spec section 7). -/
inductive FetchFault where
  | rateLimited
  | transportError
deriving DecidableEq, Repr

/-- The request body built at lines 171-178.  The dict literal has no
`startRow` key, which the model records as `startRow := none`. -/
structure QueryBody where
  startDate : String
  endDate : String
  dimensions : List String
  searchType : String
  rowLimit : Nat
  dataState : String
  startRow : Option Nat
deriving DecidableEq, Repr

/-- A query executor: given the index of the API call being made (0 for the
first call) and a request body, returns the rows of one response or raises a
classified fault. -/
def QueryExec (α : Type) : Type :=
  Nat → QueryBody → Except FetchFault (List α)

/-- Model of `fetch_gsc_data` (lines 163-188).  `credentials` models the
`if not credentials` guard; the single `.execute()` call is `executor 0`. -/
def fetch_gsc_data {α : Type} (credentials : Bool)
    (start_date_str end_date_str : String) (dimensions : List String)
    (search_type : String) (row_limit : Nat) (executor : QueryExec α) :
    List α :=
  if !credentials then []
  else
    match executor 0
        { startDate := start_date_str, endDate := end_date_str,
          dimensions := dimensions, searchType := search_type,
          rowLimit := row_limit, dataState := "all", startRow := none } with
    | .ok rows => rows
    | .error _ => []

/-- The GSC API's maximum page size. -/
def GSC_MAX_PAGE : Nat := 25000

/-- A well-behaved paginated backend holding the full row list `env`: each
call serves the slice starting at the requested offset (0 when the body has
no `startRow`), of at most `min rowLimit GSC_MAX_PAGE` rows.  This is the
"query executor that supplies N total rows in pages of at most the page
size" of the pagination claim. -/
def pagedExec {α : Type} (env : List α) : QueryExec α :=
  fun _ body =>
    .ok ((env.drop (body.startRow.getD 0)).take (min body.rowLimit GSC_MAX_PAGE))

/-- A backend that raises `RateLimited` on the first `k` calls and behaves
like `pagedExec env` afterwards: the "executor that raises RateLimited
exactly k times and then succeeds" of the retry claim. -/
def rateLimitThenServe {α : Type} (k : Nat) (env : List α) : QueryExec α :=
  fun attempt body =>
    if attempt < k then .error .rateLimited else pagedExec env attempt body

/-! ## The record normalizer: `process_gsc_api_response` (lines 191-242) -/

/-- One pandas cell of a metric column as it arrives from the API response
dict: `none` models a key that is absent from the row's dict (NaN once the
column exists), `num q` a numeric value, `obj s` a non-numeric object (an
arbitrary string that does not denote a number; `pd.to_numeric(...,
errors='coerce')` turns it into NaN). -/
inductive NumCell where
  | num (q : ℚ)
  | obj (s : String)
deriving DecidableEq, Repr

abbrev Cell := Option NumCell

/-- Model of `pd.to_numeric(col, errors='coerce')` on one cell. -/
def toNumericQ (c : Cell) : Option ℚ :=
  match c with
  | some (.num q) => some q
  | some (.obj _) => none
  | none => none

/-- One raw API row (`response['rows']` element): the positional dimension
values `keys` plus the four metric fields, each possibly absent. -/
structure RawRow where
  keys : List String
  clicks : Cell
  impressions : Cell
  ctr : Cell
  position : Cell
deriving DecidableEq, Repr

/-- One row of the structured DataFrame produced by
`process_gsc_api_response`: a parsed `date`, the derived `month_year`
period (line 228), the optional `page` dimension, and the four metric
columns after `pd.to_numeric(..., errors='coerce')` (lines 231-233) and the
`ctr * 100` rescale (line 237).  `none` models NaN. -/
structure ProcessedRow where
  date : CalDate
  month_year : Period
  page : Option String
  clicks : Option ℚ
  impressions : Option ℚ
  ctr : Option ℚ
  position : Option ℚ
deriving DecidableEq, Repr

/-- The index a dimension name ends up bound to by the extraction loop at
lines 206-211 (`for i, dim_name in enumerate(requested_dimensions): df[dim_name]
= df['keys'].apply(...)`): a later occurrence of the same name overwrites an
earlier one, so the last index wins. -/
def lastIdxOf (x : String) (l : List String) : Option Nat :=
  ((l.enum.filter (fun p => p.2 = x)).getLast?).map Prod.fst

/-- Lines 200-202: `pd.DataFrame(api_data)` materializes a metric column only
if some row's dict carries the key; a fully absent column is created filled
with `0.0`, while in a present column the rows lacking the key hold NaN. -/
def fillAbsentCol (present : Bool) (c : Cell) : Cell :=
  if present then c else some (.num 0)

/-- The per-row body of `process_gsc_api_response` once the column-presence
flags and dimension indices are fixed: extract and parse the date (lines
206-223; an unparseable date makes the row drop out via
`dropna(subset=['date'])`), extract the page dimension, coerce the metrics
(lines 231-233) and rescale `ctr` (line 237). -/
def processRow (clicksP impressionsP ctrP positionP : Bool)
    (dateIdx : Nat) (pageIdx : Option Nat) (r : RawRow) :
    Option ProcessedRow :=
  match (r.keys.get? dateIdx).bind parseGscDate with
  | none => none
  | some d =>
    some { date := d
           month_year := d.toPeriod
           page := pageIdx.bind (fun pi => r.keys.get? pi)
           clicks := toNumericQ (fillAbsentCol clicksP r.clicks)
           impressions := toNumericQ (fillAbsentCol impressionsP r.impressions)
           ctr := (toNumericQ (fillAbsentCol ctrP r.ctr)).map (fun q => q * 100)
           position := toNumericQ (fillAbsentCol positionP r.position) }

/-- Model of `process_gsc_api_response` (lines 191-242).  The empty-input guard at
line 193, the metric-column defaults at lines 200-202, the positional
dimension extraction at lines 205-211 (a `keys` list shorter than the
dimension index yields `None`, and the local `except (IndexError, TypeError)`
guard never fires on list-shaped keys), the missing-`date`-column bailout at
lines 218-220, the date parse and `dropna` at lines 222-226 (an empty
remainder returns an empty frame, which coincides with the empty row list),
the numeric coercion at lines 231-233 and the ctr rescale at line 237.  No
statement of the `try` body raises on the modelled inputs, so the blanket
`except Exception` handler at line 240 is unreachable and the function is
total. -/
def process_gsc_api_response (api_data : List RawRow)
    (requested_dimensions : List String) : List ProcessedRow :=
  if api_data.isEmpty then []
  else
    let clicksP := api_data.any (fun r => r.clicks.isSome)
    let impressionsP := api_data.any (fun r => r.impressions.isSome)
    let ctrP := api_data.any (fun r => r.ctr.isSome)
    let positionP := api_data.any (fun r => r.position.isSome)
    match lastIdxOf "date" requested_dimensions with
    | none => []
    | some di =>
      api_data.filterMap
        (processRow clicksP impressionsP ctrP positionP di
          (lastIdxOf "page" requested_dimensions))

/-! ## The MoM comparator: `calculate_mom_metrics` (lines 244-332)

The function receives the two processed DataFrames *by reference*.  Its inner
helper `aggregate_monthly_data` (lines 252-273) writes coerced metric columns
back onto the caller's object (`df[metric_col] = pd.to_numeric(...)` /
`df[metric_col] = float('nan')`, lines 257-262), so the model threads the
final state of each argument through and returns it next to the result. -/

/-- One row of a DataFrame as `calculate_mom_metrics` receives it.
`month_year` holds a monthly period or NaN, `page` a page string or NaN, and
the four metric columns hold arbitrary cells.  A field is meaningful only
when the column-presence flag of the surrounding `MomDF` is set; every
operation below consults the flags first. -/
structure MomRow where
  month_year : Option Period
  page : Option String
  clicks : Cell
  impressions : Cell
  position : Cell
  ctr : Cell
deriving DecidableEq, Repr

/-- An input DataFrame of `calculate_mom_metrics`: column-presence flags
(the code tests `'page' in df.columns` at line 249 and
`metric_col in df.columns` at lines 253 and 259) plus the rows. -/
structure MomDF where
  hasMonthYear : Bool
  hasPage : Bool
  hasClicks : Bool
  hasImpressions : Bool
  hasPosition : Bool
  hasCtr : Bool
  rows : List MomRow
deriving DecidableEq, Repr

/-- Lines 258-262 applied to one metric cell: a present column is rewritten
with `pd.to_numeric(..., errors='coerce')`; a missing column is created as
`float('nan')` (every cell NaN). -/
def coerceMetricCol (present : Bool) (c : Cell) : Cell :=
  if present then
    match c with
    | some (.num q) => some (.num q)
    | _ => none
  else none

/-- Lines 257-262, the in-place writes of `aggregate_monthly_data` on the
caller's DataFrame: the three aggregated metric columns (`clicks`,
`impressions`, `position` - the keys of `agg_config`; `ctr` is *not*
touched) are coerced or created, so they are all present afterwards. -/
def coerceMetrics (df : MomDF) : MomDF :=
  { df with
    hasClicks := true, hasImpressions := true, hasPosition := true,
    rows := df.rows.map (fun r =>
      { r with
        clicks := coerceMetricCol df.hasClicks r.clicks,
        impressions := coerceMetricCol df.hasImpressions r.impressions,
        position := coerceMetricCol df.hasPosition r.position }) }

/-- Value of a float cell after coercion (an `obj` cell no longer occurs;
`none` is NaN). -/
def cellFloat (c : Cell) : Option ℚ :=
  match c with
  | some (.num q) => some q
  | _ => none

/-- The `groupby` key of a row (line 265): rows whose key contains NaN are
dropped by pandas `groupby` (default `dropna=True`).  When not grouping by
page the second component is uniformly `none`. -/
def rowKey (byPage : Bool) (r : MomRow) : Option (Period × Option String) :=
  match r.month_year with
  | none => none
  | some p =>
    if byPage then
      match r.page with
      | none => none
      | some pg => some (p, some pg)
    else some (p, none)

/-- Ordering of group keys: pandas `groupby(sort=True)` (the default)
returns groups sorted by key - periods chronologically, then page strings
lexicographically. -/
def keyLeB (a b : Period × Option String) : Bool :=
  if a.1.year < b.1.year then true
  else if b.1.year < a.1.year then false
  else if a.1.month < b.1.month then true
  else if b.1.month < a.1.month then false
  else
    match a.2, b.2 with
    | none, _ => true
    | some _, none => false
    | some s, some t => (compare s t).isLE

/-- Pandas column sum over a group: `sum` skips NaN and returns `0.0` for an
all-NaN (or empty) group. -/
def qSum (l : List (Option ℚ)) : ℚ :=
  (l.filterMap id).sum

/-- Pandas column mean over a group: `mean` skips NaN and returns NaN for an
all-NaN group. -/
def qMean (l : List (Option ℚ)) : Option ℚ :=
  let v := l.filterMap id
  if v.isEmpty then none else some (v.sum / (v.length : ℚ))

/-- One aggregated group (a row of `grouped_df`, lines 265-273): summed
clicks and impressions, mean position, and the recomputed ctr
`(clicks / impressions.replace(0, nan)) * 100` with `fillna(0)`
(lines 268-270). -/
structure AggRow where
  month_year : Period
  page : Option String
  clicks : ℚ
  impressions : ℚ
  position : Option ℚ
  ctr : ℚ
deriving DecidableEq, Repr

/-- The aggregate row of one group key (lines 265-270). -/
def mkAggRow (rows : List MomRow) (byPage : Bool)
    (k : Period × Option String) : AggRow :=
  let g := rows.filter (fun r => decide (rowKey byPage r = some k))
  let c := qSum (g.map (fun r => cellFloat r.clicks))
  let i := qSum (g.map (fun r => cellFloat r.impressions))
  { month_year := k.1, page := k.2,
    clicks := c, impressions := i,
    position := qMean (g.map (fun r => cellFloat r.position)),
    ctr := ((if i = 0 then none else some (c / i)).map (fun x => x * 100)).getD 0 }

/-- Distinct keys, keeping first occurrences. -/
def dedupKeys : List (Period × Option String) → List (Period × Option String)
  | [] => []
  | k :: rest => k :: (dedupKeys rest).filter (fun x => decide (x ≠ k))

/-- Insert a key into a `keyLeB`-sorted list. -/
def insertSortedKey (x : Period × Option String) :
    List (Period × Option String) → List (Period × Option String)
  | [] => [x]
  | y :: ys => if keyLeB x y then x :: y :: ys else y :: insertSortedKey x ys

/-- Insertion sort by `keyLeB`. -/
def sortKeys : List (Period × Option String) → List (Period × Option String)
  | [] => []
  | x :: xs => insertSortedKey x (sortKeys xs)

/-- The sorted distinct group keys of line 265 (pandas `groupby` with the
default `sort=True` returns one group per distinct key, sorted). -/
def groupKeys (rows : List MomRow) (byPage : Bool) :
    List (Period × Option String) :=
  sortKeys (dedupKeys (rows.filterMap (rowKey byPage)))

/-- Model of `aggregate_monthly_data` (lines 252-273).  The guard at line 253
(`df.empty or not all(col in df.columns for col in grouping_cols)`) returns
an empty frame *before* any write, leaving the argument untouched; otherwise
the metric columns are coerced in place (lines 257-262) and the groups are
aggregated (lines 265-270; the `else` branch at line 272 is unreachable
because the aggregated frame always carries `clicks` and `impressions`).
Returns the final state of the argument next to the aggregate rows. -/
def aggregate_monthly_data (df : MomDF) (byPage : Bool) :
    MomDF × List AggRow :=
  if df.rows.isEmpty || !(df.hasMonthYear && (!byPage || df.hasPage)) then
    (df, [])
  else
    let df1 := coerceMetrics df
    (df1, (groupKeys df1.rows byPage).map (mkAggRow df1.rows byPage))

/-- One row of `previous_agg` after the rename at lines 280-283 and the
month shift at line 285. -/
structure PrevAggRow where
  month_year : Period
  page : Option String
  prev_clicks : ℚ
  prev_impressions : ℚ
  prev_position : Option ℚ
  prev_ctr : ℚ
deriving DecidableEq, Repr

/-- Lines 279-288: rename the previous aggregate's metric columns with a
`prev_` prefix and advance each `month_year` by one month
(`p + 1 if pd.notnull(p) else NaT`; the keys coming out of `groupby` are
never null, so the shift always applies).  An empty previous aggregate
becomes the empty frame with the renamed columns (lines 286-288). -/
def preparePrev (raw : List AggRow) : List PrevAggRow :=
  if raw.isEmpty then []
  else
    raw.map (fun a =>
      { month_year := a.month_year.next, page := a.page,
        prev_clicks := a.clicks, prev_impressions := a.impressions,
        prev_position := a.position, prev_ctr := a.ctr })

/-! ### The metric loop (lines 297-327)

Float series inside the loop need infinities: line 312 computes
`fillna(float('inf'))`.  `ExtFloat` extends ℚ with `inf`, `ninf` and `nan`
and mirrors the numpy arithmetic the loop performs. -/

inductive ExtFloat where
  | nan
  | inf
  | ninf
  | fin (q : ℚ)
deriving DecidableEq, Repr

/-- Series `fillna(v)`: replace NaN by `v`. -/
def ExtFloat.fillnaV (x v : ExtFloat) : ExtFloat :=
  match x with
  | .nan => v
  | _ => x

/-- Series `replace(a, b)`: replace the exact value `a` by `b`. -/
def ExtFloat.replaceV (x a b : ExtFloat) : ExtFloat :=
  if x = a then b else x

/-- Numpy subtraction on extended floats (`inf - inf = nan`). -/
def ExtFloat.sub : ExtFloat → ExtFloat → ExtFloat
  | .nan, _ => .nan
  | _, .nan => .nan
  | .inf, .inf => .nan
  | .inf, _ => .inf
  | .ninf, .ninf => .nan
  | .ninf, _ => .ninf
  | .fin _, .inf => .ninf
  | .fin _, .ninf => .inf
  | .fin a, .fin b => .fin (a - b)

/-- Numpy division on extended floats (`q / 0` is a signed infinity and
`0 / 0` is NaN - numpy emits a warning, not an exception). -/
def ExtFloat.div : ExtFloat → ExtFloat → ExtFloat
  | .nan, _ => .nan
  | _, .nan => .nan
  | .inf, .inf => .nan
  | .inf, .ninf => .nan
  | .ninf, .inf => .nan
  | .ninf, .ninf => .nan
  | .inf, .fin b => if b < 0 then .ninf else .inf
  | .ninf, .fin b => if b < 0 then .inf else .ninf
  | .fin _, .inf => .fin 0
  | .fin _, .ninf => .fin 0
  | .fin a, .fin b =>
    if b = 0 then (if a = 0 then .nan else if 0 < a then .inf else .ninf)
    else .fin (a / b)

/-- Multiplication by the literal `100` at line 315. -/
def ExtFloat.mul100 : ExtFloat → ExtFloat
  | .nan => .nan
  | .inf => .inf
  | .ninf => .ninf
  | .fin q => .fin (q * 100)

/-- Lift a NaN-or-finite cell into the extended domain. -/
def liftF (x : Option ℚ) : ExtFloat :=
  match x with
  | none => .nan
  | some q => .fin q

/-- Numpy elementwise `x == b` against a Python bool (upcast to `0.0` or
`1.0`; any comparison with NaN or an infinity is false). -/
def efEqBool (x : ExtFloat) (b : Bool) : Bool :=
  match x with
  | .fin q => decide (q = (if b then 1 else 0))
  | _ => false

/-- Numpy elementwise `x > 0` (false on NaN). -/
def efGtZero (x : ExtFloat) : Bool :=
  match x with
  | .fin q => decide (0 < q)
  | .inf => true
  | _ => false

/-- Numpy elementwise `x < inf` (false on NaN and on `inf` itself). -/
def efLtInf (x : ExtFloat) : Bool :=
  match x with
  | .fin _ => true
  | .ninf => true
  | _ => false

/-- The four metrics the loop at line 297 iterates over, in Python dict
order: `list(agg_config.keys()) + ['ctr']`. -/
inductive Metric where
  | clicks
  | impressions
  | position
  | ctr
deriving DecidableEq, Repr

def momMetricOrder : List Metric :=
  [Metric.clicks, Metric.impressions, Metric.position, Metric.ctr]

/-- One row of `merged_df` (line 294): the current aggregate's columns, the
`prev_`-prefixed columns of the left merge (`none` = NaN when no previous
group matches), and the four `_mom` columns.  The `_mom` fields model
columns that do not exist yet (all NaN) until the loop assigns them. -/
structure MergedRow where
  month_year : Period
  page : Option String
  clicks : ℚ
  impressions : ℚ
  position : Option ℚ
  ctr : ℚ
  prev_clicks : Option ℚ
  prev_impressions : Option ℚ
  prev_position : Option ℚ
  prev_ctr : Option ℚ
  clicks_mom : ExtFloat
  impressions_mom : ExtFloat
  position_mom : ExtFloat
  ctr_mom : ExtFloat
deriving DecidableEq, Repr

/-- Line 294, `pd.merge(current_agg, previous_agg, on=group_by_cols,
how='left')`: every current row is kept in order; the `prev_` columns come
from the previous row with the same key when one exists and are NaN
otherwise.  The previous frame's keys are pairwise distinct (`groupby` keys
shifted by the injective month successor), so the left merge is a single
lookup per current row and never duplicates rows. -/
def mergeLeft (byPage : Bool) (cur : List AggRow) (prev : List PrevAggRow) :
    List MergedRow :=
  cur.map (fun c =>
    let m := prev.find? (fun p =>
      decide (p.month_year = c.month_year) &&
        (!byPage || decide (p.page = c.page)))
    { month_year := c.month_year, page := c.page,
      clicks := c.clicks, impressions := c.impressions,
      position := c.position, ctr := c.ctr,
      prev_clicks := m.map (fun p => p.prev_clicks),
      prev_impressions := m.map (fun p => p.prev_impressions),
      prev_position := m.bind (fun p => p.prev_position),
      prev_ctr := m.map (fun p => p.prev_ctr),
      clicks_mom := .nan, impressions_mom := .nan,
      position_mom := .nan, ctr_mom := .nan })

/-- Current-side series cell of a metric in `merged_df` (the aggregate's
`clicks`/`impressions`/`ctr` are never NaN; `position` can be). -/
def curValF (m : Metric) (r : MergedRow) : ExtFloat :=
  match m with
  | .clicks => .fin r.clicks
  | .impressions => .fin r.impressions
  | .position => liftF r.position
  | .ctr => .fin r.ctr

/-- Previous-side series cell of a metric in `merged_df`. -/
def prevValF (m : Metric) (r : MergedRow) : ExtFloat :=
  match m with
  | .clicks => liftF r.prev_clicks
  | .impressions => liftF r.prev_impressions
  | .position => liftF r.prev_position
  | .ctr => liftF r.prev_ctr

/-- Lines 306-315: the raw MoM value of one row.  General metrics use
`(cur.fillna(0) - prev.fillna(0)) / prev.fillna(0).replace(0, nan) * 100`;
`position` (lines 312-313) uses
`(prev.fillna(inf) - cur.fillna(inf)) / prev.fillna(inf).replace(inf, nan)
* 100`. -/
def momRaw (m : Metric) (cur prev : ExtFloat) : ExtFloat :=
  if m = .position then
    ((ExtFloat.sub (prev.fillnaV .inf) (cur.fillnaV .inf)).div
      ((prev.fillnaV .inf).replaceV .inf .nan)).mul100
  else
    ((ExtFloat.sub (cur.fillnaV (.fin 0)) (prev.fillnaV (.fin 0))).div
      ((prev.fillnaV (.fin 0)).replaceV (.fin 0) .nan)).mul100

/-- Right-hand side of the comparison in the line 322 mask.  Python parses
`a == 0 & b & c` as `a == ((0 & b) & c)` (`&` binds tighter than `==`), and
pandas evaluates `0 & <bool series>` elementwise with the integer scalar `0`
treated as `False`, giving an all-`False` series; conjoining the Python bool
`metric != 'position'` leaves it all `False`. -/
def line322rhs (curGt0 : Bool) (metricNotPos : Bool) : Bool :=
  (false && curGt0) && metricNotPos

/-- The (buggy) mask actually computed at line 322:
`prev.fillna(0) == ((0 & (cur.fillna(0) > 0)) & (metric != 'position'))`,
an elementwise comparison of the filled previous column against an
all-`False` series - so it selects exactly the rows whose previous value
fills to `0`, for every metric, regardless of the current value. -/
def line322mask (m : Metric) (r : MergedRow) : Bool :=
  efEqBool ((prevValF m r).fillnaV (.fin 0))
    (line322rhs (efGtZero ((curValF m r).fillnaV (.fin 0)))
      (decide (m ≠ .position)))

/-- Errors the modelled pandas operations can raise. -/
inductive PdErr where
  | typeError
deriving DecidableEq, Repr

/-- Pandas `&` between a *float* scalar and a boolean Series raises
`TypeError` for every input, including the empty series: in
`ops.na_logical_op`, `np.bitwise_and` rejects the float operand, and the
fallback `libops.scalar_binop` requires an object-dtype array, so the
wrapper re-raises `TypeError` ("Cannot perform 'rand_' with a dtyped [bool]
array and scalar of type [float]").  Line 323 evaluates
`float('inf') & (merged_df[current_col].fillna(float('inf')) < float('inf'))`
- Python parses the `==` line as a comparison against this `&`-chain - so
the statement raises unconditionally. -/
def floatScalarAndBoolSeries (_s : List Bool) : Except PdErr (List Bool) :=
  .error .typeError

/-- Write the `mom_col` column of one row. -/
def setMom (m : Metric) (r : MergedRow) (v : ExtFloat) : MergedRow :=
  match m with
  | .clicks => { r with clicks_mom := v }
  | .impressions => { r with impressions_mom := v }
  | .position => { r with position_mom := v }
  | .ctr => { r with ctr_mom := v }

/-- One iteration of the metric loop (lines 297-327).  Both column names
exist after the merge, so the `else` branch at line 327 is dead.  Lines
306-315 compute the raw MoM column, line 322 overrides it under the buggy
mask, and line 323 then raises `TypeError` while evaluating its mask
(`float('inf') & <bool series>`), discarding everything this iteration
computed.  The statements after the raise (line 323's assignment under the
analogous degenerate mask and line 325's `fillna(0)`) are modelled but
unreachable. -/
def momBody (t : List MergedRow) (m : Metric) :
    Except PdErr (List MergedRow) := do
  let momCol := t.map (fun r => momRaw m (curValF m r) (prevValF m r))
  let momCol := List.zipWith
    (fun r v => if line322mask m r then ExtFloat.fin 100 else v) t momCol
  let mask323 ← floatScalarAndBoolSeries
    (t.map (fun r => efLtInf ((curValF m r).fillnaV .inf)))
  let momCol := List.zipWith
    (fun mk v => if mk then ExtFloat.fin 100 else v) mask323 momCol
  let momCol := momCol.map (fun v => v.fillnaV (.fin 0))
  pure (List.zipWith (setMom m) t momCol)

/-- The loop at line 297 over the four metrics. -/
def momLoop (t : List MergedRow) : Except PdErr (List MergedRow) :=
  momMetricOrder.foldlM momBody t

/-- Body of the `try` block of `calculate_mom_metrics` (lines 246-329):
determine the grouping columns (line 249: page-level only when the *current*
frame has a `page` column), aggregate both periods (lines 275-276, mutating
both arguments in place), prepare the shifted previous aggregate (lines
279-288), return an empty frame when the current aggregate is empty (lines
290-291), otherwise merge (line 294) and run the metric loop (lines
297-327).  Returns the final states of the two arguments plus the outcome
of the block. -/
def calcMomTry (dfC dfP : MomDF) (pageLevel : Bool) :
    (MomDF × MomDF) × Except PdErr (List MergedRow) :=
  let byPage := pageLevel && dfC.hasPage
  let aggC := aggregate_monthly_data dfC byPage
  let aggP := aggregate_monthly_data dfP byPage
  let previousAgg := preparePrev aggP.2
  if aggC.2.isEmpty then ((aggC.1, aggP.1), .ok [])
  else ((aggC.1, aggP.1), momLoop (mergeLeft byPage aggC.2 previousAgg))

/-- Model of `calculate_mom_metrics` (lines 244-332): the `try` body with
the blanket `except Exception` handler at lines 330-332, which turns any
internal exception into an empty returned DataFrame.  The in-place
mutations performed before the exception persist on the caller's objects,
so the final argument states are returned unchanged by the handler. -/
def calculate_mom_metrics (dfC dfP : MomDF) (pageLevel : Bool) :
    MomDF × MomDF × List MergedRow :=
  match calcMomTry dfC dfP pageLevel with
  | ((c, p), .ok out) => (c, p, out)
  | ((c, p), .error _) => (c, p, [])

/-! ## Concrete fixtures used by the claim theorems -/

/-- Whether a metric cell is numeric-or-NaN (not a non-numeric object), so
that `pd.to_numeric(..., errors='coerce')` leaves it unchanged. -/
def cellClean (c : Cell) : Bool :=
  match c with
  | some (.obj _) => false
  | _ => true

/-- A DataFrame whose aggregated metric columns are present and hold only
numeric-or-NaN cells: on such a frame the in-place writes of
`aggregate_monthly_data` are value-preserving. -/
def MomDF.cleanMetrics (df : MomDF) : Prop :=
  df.hasClicks = true ∧ df.hasImpressions = true ∧ df.hasPosition = true ∧
    ∀ r ∈ df.rows, cellClean r.clicks = true ∧ cellClean r.impressions = true ∧
      cellClean r.position = true

/-- Rows with clicks `[10, 0]` and impressions `[100, 50]` in the same
month: the CTR-recomputation example. -/
def exC6df : MomDF :=
  { hasMonthYear := true, hasPage := false, hasClicks := true,
    hasImpressions := true, hasPosition := true, hasCtr := true,
    rows :=
      [ { month_year := some { year := 2024, month := 3 }, page := none,
          clicks := some (.num 10), impressions := some (.num 100),
          position := some (.num 1), ctr := some (.num 10) },
        { month_year := some { year := 2024, month := 3 }, page := none,
          clicks := some (.num 0), impressions := some (.num 50),
          position := some (.num 1), ctr := some (.num 0) } ] }

/-- The aggregate row `exC6df` produces. -/
def c6AggRow : AggRow :=
  { month_year := { year := 2024, month := 3 }, page := none,
    clicks := 10, impressions := 150, position := some 1, ctr := 20/3 }

/-- Current month of the zero-baseline scenario: impressions 500. -/
def c3Cur : MomDF :=
  { hasMonthYear := true, hasPage := false, hasClicks := true,
    hasImpressions := true, hasPosition := true, hasCtr := true,
    rows :=
      [ { month_year := some { year := 2024, month := 3 }, page := none,
          clicks := some (.num 0), impressions := some (.num 500),
          position := some (.num 1), ctr := some (.num 0) } ] }

/-- Previous month of the zero-baseline scenario: impressions 0. -/
def c3Prev : MomDF :=
  { hasMonthYear := true, hasPage := false, hasClicks := true,
    hasImpressions := true, hasPosition := true, hasCtr := true,
    rows :=
      [ { month_year := some { year := 2024, month := 2 }, page := none,
          clicks := some (.num 0), impressions := some (.num 0),
          position := some (.num 1), ctr := some (.num 0) } ] }

/-- Current month of the spec's end-to-end scenario: clicks 1000,
impressions 20000, position 8.0. -/
def c4Cur : MomDF :=
  { hasMonthYear := true, hasPage := false, hasClicks := true,
    hasImpressions := true, hasPosition := true, hasCtr := true,
    rows :=
      [ { month_year := some { year := 2024, month := 3 }, page := none,
          clicks := some (.num 1000), impressions := some (.num 20000),
          position := some (.num 8), ctr := some (.num 5) } ] }

/-- Previous month of the spec's end-to-end scenario: clicks 800,
impressions 25000, position 10.0. -/
def c4Prev : MomDF :=
  { hasMonthYear := true, hasPage := false, hasClicks := true,
    hasImpressions := true, hasPosition := true, hasCtr := true,
    rows :=
      [ { month_year := some { year := 2024, month := 2 }, page := none,
          clicks := some (.num 800), impressions := some (.num 25000),
          position := some (.num 10), ctr := some (.num 3) } ] }

/-- Current month of the position-polarity scenario: position 5.0. -/
def c5Cur : MomDF :=
  { hasMonthYear := true, hasPage := false, hasClicks := true,
    hasImpressions := true, hasPosition := true, hasCtr := true,
    rows :=
      [ { month_year := some { year := 2024, month := 3 }, page := none,
          clicks := some (.num 10), impressions := some (.num 100),
          position := some (.num 5), ctr := some (.num 10) } ] }

/-- Previous month of the position-polarity scenario: position 10.0. -/
def c5Prev : MomDF :=
  { hasMonthYear := true, hasPage := false, hasClicks := true,
    hasImpressions := true, hasPosition := true, hasCtr := true,
    rows :=
      [ { month_year := some { year := 2024, month := 2 }, page := none,
          clicks := some (.num 10), impressions := some (.num 100),
          position := some (.num 10), ctr := some (.num 10) } ] }

/-- A February 2024 previous-period aggregate row. -/
def febAgg : AggRow :=
  { month_year := { year := 2024, month := 2 }, page := none,
    clicks := 800, impressions := 25000, position := some 10, ctr := 3 }

/-- A March 2024 current-period aggregate row. -/
def marAgg : AggRow :=
  { month_year := { year := 2024, month := 3 }, page := none,
    clicks := 1000, impressions := 20000, position := some 8, ctr := 5 }

/-- An April 2024 current-period aggregate row. -/
def aprAgg : AggRow :=
  { month_year := { year := 2024, month := 4 }, page := none,
    clicks := 1000, impressions := 20000, position := some 8, ctr := 5 }

/-- An empty current-period frame (for the empty-current clause). -/
def emptyMomDF : MomDF :=
  { hasMonthYear := true, hasPage := false, hasClicks := true,
    hasImpressions := true, hasPosition := true, hasCtr := true, rows := [] }

/-- A nonempty frame *missing* its `clicks` column: `aggregate_monthly_data`
adds that column in place (line 262), mutating the caller's object. -/
def c9MutatedCur : MomDF :=
  { hasMonthYear := true, hasPage := false, hasClicks := false,
    hasImpressions := true, hasPosition := true, hasCtr := false,
    rows :=
      [ { month_year := some { year := 2024, month := 1 }, page := none,
          clicks := none, impressions := some (.num 2),
          position := some (.num 3), ctr := none } ] }

/-- A clean companion frame for the mutation scenarios. -/
def c9PrevDF : MomDF :=
  { hasMonthYear := true, hasPage := false, hasClicks := true,
    hasImpressions := true, hasPosition := true, hasCtr := true,
    rows :=
      [ { month_year := some { year := 2023, month := 12 }, page := none,
          clicks := some (.num 1), impressions := some (.num 2),
          position := some (.num 3), ctr := some (.num 50) } ] }

/-- A raw API row with a well-formed date. -/
def c8Good : RawRow :=
  { keys := ["2024-03-05"], clicks := some (.num 3),
    impressions := some (.num 50), ctr := some (.num 6),
    position := some (.num 2) }

/-- A raw API row whose date value does not parse as a calendar date. -/
def c8Bad : RawRow :=
  { keys := ["not-a-date"], clicks := some (.num 7),
    impressions := some (.num 9), ctr := some (.num 1),
    position := some (.num 4) }

/-- A minimal nonempty current frame on which the metric loop's internal
`TypeError` fires. -/
def c10Cur : MomDF :=
  { hasMonthYear := true, hasPage := false, hasClicks := true,
    hasImpressions := true, hasPosition := true, hasCtr := true,
    rows :=
      [ { month_year := some { year := 2024, month := 5 }, page := none,
          clicks := some (.num 1), impressions := some (.num 1),
          position := some (.num 1), ctr := some (.num 100) } ] }

/-! ## Helper lemmas -/

/-- Every iteration of the metric loop raises: line 323 evaluates
`float('inf') & <bool series>` before anything of the iteration becomes
observable. -/
theorem momBody_error (t : List MergedRow) (m : Metric) :
    momBody t m = Except.error PdErr.typeError := rfl

/-- The metric loop of lines 297-327 raises `TypeError` during its first
iteration on every merged table. -/
theorem momLoop_error (t : List MergedRow) :
    momLoop t = Except.error PdErr.typeError := rfl

/-- Whatever the inputs, the row list `calculate_mom_metrics` returns is
empty: either the current aggregate is empty (lines 290-291) or the metric
loop raises and the handler at lines 330-332 returns an empty frame. -/
theorem calc_mom_result_nil (dfC dfP : MomDF) (lvl : Bool) :
    (calculate_mom_metrics dfC dfP lvl).2.2 = [] := by
  unfold calculate_mom_metrics calcMomTry
  by_cases hc :
      ((aggregate_monthly_data dfC (lvl && dfC.hasPage)).2).isEmpty
  · simp [hc]
  · simp [hc, momLoop_error]

/-- The final state of the first argument of `calculate_mom_metrics` is
whatever the current-period aggregation left it as. -/
theorem calc_mom_fst (dfC dfP : MomDF) (lvl : Bool) :
    (calculate_mom_metrics dfC dfP lvl).1 =
      (aggregate_monthly_data dfC (lvl && dfC.hasPage)).1 := by
  unfold calculate_mom_metrics calcMomTry
  by_cases hc :
      ((aggregate_monthly_data dfC (lvl && dfC.hasPage)).2).isEmpty
  · simp [hc]
  · simp [hc, momLoop_error]

/-- The final state of the second argument of `calculate_mom_metrics` is
whatever the previous-period aggregation left it as. -/
theorem calc_mom_snd (dfC dfP : MomDF) (lvl : Bool) :
    (calculate_mom_metrics dfC dfP lvl).2.1 =
      (aggregate_monthly_data dfP (lvl && dfC.hasPage)).1 := by
  unfold calculate_mom_metrics calcMomTry
  by_cases hc :
      ((aggregate_monthly_data dfC (lvl && dfC.hasPage)).2).isEmpty
  · simp [hc]
  · simp [hc, momLoop_error]

/-- Mapping a function that fixes every element of a list is the
identity. -/
theorem map_id_of_forall {α : Type} (l : List α) (f : α → α)
    (h : ∀ x ∈ l, f x = x) : l.map f = l := by
  induction l with
  | nil => rfl
  | cons a t ih =>
    simp only [List.map_cons, h a (List.mem_cons_self a t)]
    exact congrArg (a :: ·) (ih (fun x hx => h x (List.mem_cons_of_mem a hx)))

/-- Coercing a present numeric-or-NaN column cell is the identity. -/
theorem coerceMetricCol_clean (c : Cell) (h : cellClean c = true) :
    coerceMetricCol true c = c := by
  match c with
  | none => rfl
  | some (.num q) => rfl
  | some (.obj s) => simp [cellClean] at h

/-- On a frame whose metric columns are present and numeric-or-NaN, the
in-place writes of lines 257-262 change nothing. -/
theorem coerceMetrics_clean (df : MomDF) (h : df.cleanMetrics) :
    coerceMetrics df = df := by
  obtain ⟨h1, h2, h3, h4⟩ := h
  cases df with
  | mk hmy hpg hc hi hp hctr rows =>
    simp only at h1 h2 h3 h4
    subst h1; subst h2; subst h3
    unfold coerceMetrics
    simp only [MomDF.mk.injEq, and_true, true_and]
    apply map_id_of_forall
    intro r hr
    obtain ⟨hc1, hc2, hc3⟩ := h4 r hr
    simp [coerceMetricCol_clean _ hc1, coerceMetricCol_clean _ hc2,
      coerceMetricCol_clean _ hc3]

/-- On a clean frame `aggregate_monthly_data` leaves its argument
untouched. -/
theorem aggregate_fst_clean (df : MomDF) (byPage : Bool)
    (h : df.cleanMetrics) : (aggregate_monthly_data df byPage).1 = df := by
  unfold aggregate_monthly_data
  split
  · rfl
  · simp [coerceMetrics_clean df h]

/-- Recomputed ctr of an aggregate row: `(clicks / impressions.replace(0,
nan)) * 100` with `fillna(0)` equals `100 * clicks / impressions` when the
summed impressions are nonzero and `0` otherwise. -/
theorem mkAggRow_ctr (rows : List MomRow) (byPage : Bool)
    (k : Period × Option String) :
    (mkAggRow rows byPage k).ctr =
      if (mkAggRow rows byPage k).impressions = 0 then 0
      else 100 * (mkAggRow rows byPage k).clicks /
        (mkAggRow rows byPage k).impressions := by
  unfold mkAggRow
  simp only
  by_cases hi :
      qSum (List.map (fun r => cellFloat r.impressions)
        (List.filter (fun r => decide (rowKey byPage r = some k)) rows)) = 0
  · simp [hi]
  · rw [if_neg hi]
    simp only [Option.map_some', Option.getD_some]
    rw [if_neg hi]
    ring

/-- Concrete aggregation of the two-row CTR example: clicks sum to 10,
impressions to 150, and the recomputed ctr is `20/3`. -/
theorem c6_concrete_agg :
    (aggregate_monthly_data exC6df false).2 = [c6AggRow] := by
  simp only [aggregate_monthly_data, exC6df, coerceMetrics, coerceMetricCol,
    groupKeys, sortKeys, dedupKeys, insertSortedKey, rowKey, mkAggRow, qSum,
    qMean, cellFloat, c6AggRow, List.filterMap, List.filter, List.map,
    List.isEmpty, keyLeB]
  norm_num [AggRow.mk.injEq, List.filter, Period.mk.injEq]

/-! ## Claim theorems -/

/-- C1, counterexample: for a paginated backend supplying `N = 25001` rows
in pages of at most 25000, `fetch_gsc_data` does *not* return exactly `N`
rows - it never advances an offset cursor, so only the first page comes
back. -/
theorem c1_counterexample :
    (fetch_gsc_data true "2024-03-01" "2024-03-31" ["date"] "web" 25000
        (pagedExec (List.range 25001))).length ≠
      (List.range 25001).length := by
  have key : ∀ env : List Nat, env.length = 25001 →
      (fetch_gsc_data true "2024-03-01" "2024-03-31" ["date"] "web" 25000
        (pagedExec env)).length ≠ env.length := by
    intro env hl
    have hfetch : fetch_gsc_data true "2024-03-01" "2024-03-31" ["date"] "web"
        25000 (pagedExec env) = env.take 25000 := by
      simp [fetch_gsc_data, pagedExec, GSC_MAX_PAGE]
    rw [hfetch, List.length_take, hl]
    decide
  exact key (List.range 25001) (List.length_range 25001)

/-- C1 (amended): the fetch issues exactly one request (no `startRow`, so
offset 0, `rowLimit` 25000) and returns that single page: the first
`min N 25000` of the backend's rows, in arrival order.  It therefore
returns exactly `N` rows only when `N ≤ 25000`; it never iterates. -/
theorem c1_fetch_single_page {α : Type} (env : List α)
    (sd ed st : String) (dims : List String) :
    fetch_gsc_data true sd ed dims st 25000 (pagedExec env) =
      env.take 25000 := by
  simp [fetch_gsc_data, pagedExec, GSC_MAX_PAGE]

/-- C2, counterexample: an executor that raises `RateLimited` exactly once
(`k = 1 < 3`) and then succeeds does *not* yield the full row set - the
single failed call is absorbed into an empty result, with no retry. -/
theorem c2_counterexample :
    fetch_gsc_data true "2024-03-01" "2024-03-31" ["date"] "web" 25000
        (rateLimitThenServe 1 [(0 : ℕ)]) ≠ [0] := by
  decide

/-- C2 (amended): `fetch_gsc_data` performs exactly one request and never
retries: an executor that raises `RateLimited` on `k ≥ 1` calls before
succeeding produces an empty result (the exception is caught and `[]`
returned, nothing is raised to the caller); only `k = 0` yields the page's
rows.  Non-rate-limit faults are likewise never retried (the handler does
not inspect the fault kind). -/
theorem c2_no_retry {α : Type} (k : Nat) (env : List α)
    (sd ed st : String) (dims : List String) :
    fetch_gsc_data true sd ed dims st 25000 (rateLimitThenServe k env) =
      if k = 0 then env.take 25000 else [] := by
  by_cases hk : k = 0
  · subst hk
    simp [fetch_gsc_data, rateLimitThenServe, pagedExec, GSC_MAX_PAGE]
  · simp [fetch_gsc_data, rateLimitThenServe, hk, Nat.pos_of_ne_zero hk]

/-- C3 (code bug): on the zero-baseline scenario (previous impressions 0,
current impressions 500) `calculate_mom_metrics` returns the *empty* table
- no `impressions_mom` of `100.0` (nor any other MoM value) is ever
produced, because line 323 raises `TypeError` on the loop's first
iteration and the blanket handler returns an empty DataFrame, contradicting
the intent documented in the code's own comments at lines 317-323. -/
theorem c3_zero_baseline_empty :
    (calculate_mom_metrics c3Cur c3Prev false).2.2 = [] :=
  calc_mom_result_nil c3Cur c3Prev false

/-- C4 (code bug): on the spec's end-to-end scenario (previous position
10.0, current 8.0, etc.) `calculate_mom_metrics` returns the empty table,
so no `position_mom = 20.0` row exists, contradicting the formula the
code's comments at lines 310-311 document. -/
theorem c4_end_to_end_empty :
    (calculate_mom_metrics c4Cur c4Prev false).2.2 = [] :=
  calc_mom_result_nil c4Cur c4Prev false

/-- C5, counterexample: for previous position 10.0 and current 5.0 the
computation reports no `position_mean_mom` at all - the result is the
empty table, so in particular it does not report `100.0`. -/
theorem c5_counterexample :
    (calculate_mom_metrics c5Cur c5Prev false).2.2 = [] ∧
      ¬ ∃ r, r ∈ (calculate_mom_metrics c5Cur c5Prev false).2.2 ∧
        r.position_mom = ExtFloat.fin 100 := by
  constructor
  · exact calc_mom_result_nil c5Cur c5Prev false
  · intro hex
    obtain ⟨r, hr, _⟩ := hex
    rw [calc_mom_result_nil c5Cur c5Prev false] at hr
    simp at hr

/-- C5 (amended): for every input pair - in particular previous
position_mean 10.0 against current 5.0 - `calculate_mom_metrics` reports
nothing: the metric loop raises internally and the handler returns the
empty table, so neither `100.0` nor `-50.0` is ever produced. -/
theorem c5_reports_nothing (dfC dfP : MomDF) (lvl : Bool) :
    (calculate_mom_metrics dfC dfP lvl).2.2 = [] :=
  calc_mom_result_nil dfC dfP lvl

/-- C6: every group produced by `aggregate_monthly_data` carries
`ctr = 100 * clicks_sum / impressions_sum` when the summed impressions are
nonzero and `ctr = 0` when they are zero - recomputed from the sums, never
averaged from per-row ctr values: on rows with clicks `[10, 0]` and
impressions `[100, 50]` the aggregate ctr is `20/3 ≈ 6.67`, not the mean
`(10 + 0)/2 = 5` of the per-row ctrs. -/
theorem c6_ctr_recomputed :
    (∀ (df : MomDF) (byPage : Bool),
        ∀ g ∈ (aggregate_monthly_data df byPage).2,
          g.ctr = if g.impressions = 0 then 0
            else 100 * g.clicks / g.impressions)
    ∧ (aggregate_monthly_data exC6df false).2 = [c6AggRow]
    ∧ ((20 : ℚ)/3 ≠ (10 + 0)/2) := by
  refine ⟨?_, c6_concrete_agg, by norm_num⟩
  intro df byPage g hg
  unfold aggregate_monthly_data at hg
  split at hg
  · simp at hg
  · have hg2 : g ∈ List.map (mkAggRow (coerceMetrics df).rows byPage)
        (groupKeys (coerceMetrics df).rows byPage) := by simpa using hg
    obtain ⟨k, hk, hEq⟩ := List.mem_map.1 hg2
    rw [← hEq]
    exact mkAggRow_ctr _ _ _

/-- C6 witness: the universal part of `c6_ctr_recomputed` instantiated on
the concrete two-row frame. -/
theorem c6_witness :
    c6AggRow ∈ (aggregate_monthly_data exC6df false).2 ∧
      c6AggRow.ctr = if c6AggRow.impressions = 0 then 0
        else 100 * c6AggRow.clicks / c6AggRow.impressions :=
  ⟨c6_concrete_agg ▸ List.mem_singleton.2 rfl,
    c6_ctr_recomputed.1 exC6df false c6AggRow
      (c6_concrete_agg ▸ List.mem_singleton.2 rfl)⟩

/-- C7: month alignment and the left join (lines 279-294).  (i) Every
previous-period aggregate row's month key is advanced by exactly one month
before joining.  (ii) The merge is a left join on the group key: every
current-period group appears in the output, in order, even when no
matching previous group exists.  (iii) Concretely, a February 2024 previous
row is paired with the March 2024 current group (its values appear as the
`prev_` columns) and never with an April 2024 current group (whose `prev_`
columns stay NaN).  (iv) If the current aggregate is empty, the result of
`calculate_mom_metrics` is empty (lines 290-291). -/
theorem c7_join_alignment :
    (∀ raw : List AggRow,
        (preparePrev raw).map (fun p => p.month_year) =
          raw.map (fun a => a.month_year.next))
    ∧ (∀ (byPage : Bool) (cur : List AggRow) (prev : List PrevAggRow),
        (mergeLeft byPage cur prev).map (fun m => (m.month_year, m.page)) =
          cur.map (fun c => (c.month_year, c.page)))
    ∧ ((mergeLeft false [marAgg] (preparePrev [febAgg])).map
          (fun m => (m.month_year, m.prev_clicks)) =
        [({ year := 2024, month := 3 }, some 800)])
    ∧ ((mergeLeft false [aprAgg] (preparePrev [febAgg])).map
          (fun m => (m.month_year, m.prev_clicks)) =
        [({ year := 2024, month := 4 }, none)])
    ∧ (∀ (dfC dfP : MomDF) (lvl : Bool),
        (aggregate_monthly_data dfC (lvl && dfC.hasPage)).2 = [] →
          (calculate_mom_metrics dfC dfP lvl).2.2 = []) := by
  refine ⟨?_, ?_, by decide, by decide, ?_⟩
  · intro raw
    cases raw with
    | nil => rfl
    | cons a t => simp [preparePrev, List.map_map, Function.comp]
  · intro byPage cur prev
    simp only [mergeLeft, List.map_map]
    rfl
  · intro dfC dfP lvl _
    exact calc_mom_result_nil dfC dfP lvl

/-- C7 witness: the empty-current clause instantiated - an empty current
frame aggregates to no groups and the comparison result is empty. -/
theorem c7_witness :
    (aggregate_monthly_data emptyMomDF (false && emptyMomDF.hasPage)).2 = []
      ∧ (calculate_mom_metrics emptyMomDF emptyMomDF false).2.2 = [] :=
  ⟨rfl, c7_join_alignment.2.2.2.2 emptyMomDF emptyMomDF false rfl⟩

/-- C8: a raw row whose `date` value fails to parse is dropped during
normalization and the rest of the batch is processed exactly as it would
have been without the offending row - nothing is raised and no other row is
discarded or altered (so every downstream aggregate computed from the
output is unaffected by the bad row).  The metric-presence hypothesis says
each remaining row carries all four metric fields, which is how GSC API
responses are shaped (a metric column is omitted only when it is absent
from every row). -/
theorem processRow_none (cP iP ctP pP : Bool) (di : Nat)
    (pidx : Option Nat) (bad : RawRow)
    (hb : (bad.keys.get? di).bind parseGscDate = none) :
    processRow cP iP ctP pP di pidx bad = none := by
  rw [List.get?_eq_getElem?] at hb
  simp [processRow, hb]

/-- Unfolding of the normalizer on a nonempty batch. -/
theorem process_nonempty (api : List RawRow) (dims : List String)
    (h : api.isEmpty = false) :
    process_gsc_api_response api dims =
      match lastIdxOf "date" dims with
      | none => []
      | some di =>
        api.filterMap
          (processRow (api.any (fun r => r.clicks.isSome))
            (api.any (fun r => r.impressions.isSome))
            (api.any (fun r => r.ctr.isSome))
            (api.any (fun r => r.position.isSome)) di
            (lastIdxOf "page" dims)) := by
  unfold process_gsc_api_response
  rw [h]
  rfl

theorem c8_bad_date_dropped (pre post : List RawRow) (bad : RawRow)
    (dims : List String)
    (huni : ∀ r ∈ pre ++ post, r.clicks.isSome = true ∧
      r.impressions.isSome = true ∧ r.ctr.isSome = true ∧
      r.position.isSome = true)
    (hbad : ((lastIdxOf "date" dims).all
        (fun di => ((bad.keys.get? di).bind parseGscDate).isNone)) = true) :
    process_gsc_api_response (pre ++ bad :: post) dims =
      process_gsc_api_response (pre ++ post) dims := by
  have hbParse : ∀ di, lastIdxOf "date" dims = some di →
      (bad.keys.get? di).bind parseGscDate = none := by
    intro di hdi
    rw [hdi] at hbad
    simpa [Option.all, Option.isNone_iff_eq_none] using hbad
  by_cases hpp : pre ++ post = []
  · obtain ⟨hpre, hpost⟩ := List.append_eq_nil.1 hpp
    subst hpre; subst hpost
    have hne : ([] ++ bad :: ([] : List RawRow)).isEmpty = false := rfl
    rw [process_nonempty ([] ++ bad :: []) dims hne]
    cases hdi : lastIdxOf "date" dims with
    | none => rfl
    | some di =>
      simp [process_gsc_api_response,
        processRow_none _ _ _ _ _ _ bad (hbParse di hdi)]
  · have hne2 : (pre ++ post).isEmpty = false := by
      cases hq : pre ++ post with
      | nil => exact absurd hq hpp
      | cons a t => rfl
    have hne1 : (pre ++ bad :: post).isEmpty = false := by
      cases pre <;> rfl
    obtain ⟨x, hmem⟩ := List.exists_mem_of_ne_nil _ hpp
    have hmem1 : x ∈ pre ++ bad :: post := by
      rcases List.mem_append.1 hmem with h | h
      · exact List.mem_append_left _ h
      · exact List.mem_append_right _ (List.mem_cons_of_mem _ h)
    have hflag : ∀ (f : RawRow → Bool), (∀ r ∈ pre ++ post, f r = true) →
        ((pre ++ bad :: post).any f = true ∧ (pre ++ post).any f = true) :=
      fun f hf => ⟨List.any_eq_true.2 ⟨x, hmem1, hf x hmem⟩,
        List.any_eq_true.2 ⟨x, hmem, hf x hmem⟩⟩
    have hcl := hflag (fun r => r.clicks.isSome) (fun r hr => (huni r hr).1)
    have him := hflag (fun r => r.impressions.isSome)
      (fun r hr => (huni r hr).2.1)
    have hct := hflag (fun r => r.ctr.isSome) (fun r hr => (huni r hr).2.2.1)
    have hpo := hflag (fun r => r.position.isSome)
      (fun r hr => (huni r hr).2.2.2)
    rw [process_nonempty _ _ hne1, process_nonempty _ _ hne2]
    simp only [hcl.1, hcl.2, him.1, him.2, hct.1, hct.2, hpo.1, hpo.2]
    cases hdi : lastIdxOf "date" dims with
    | none => rfl
    | some di =>
      simp [List.filterMap_append, List.filterMap_cons,
        processRow_none _ _ _ _ _ _ bad (hbParse di hdi)]

/-- C8 witness: a two-row batch whose second row has the unparseable date
value `"not-a-date"` normalizes to the same output as the batch without
it. -/
theorem c8_witness :
    process_gsc_api_response [c8Good, c8Bad] ["date"] =
      process_gsc_api_response [c8Good] ["date"] :=
  c8_bad_date_dropped [c8Good] [] c8Bad ["date"] (by decide) (by decide)

/-- C9, counterexample: `calculate_mom_metrics` mutates its caller's
frame - on a nonempty current frame lacking a `clicks` column, the inner
aggregation adds that column in place (line 262), so the input object
differs after the call. -/
theorem c9_counterexample :
    (calculate_mom_metrics c9MutatedCur c9PrevDF false).1 ≠ c9MutatedCur := by
  decide

/-- C9 (amended): `calculate_mom_metrics` writes back onto its callers'
DataFrames: lines 257-262 coerce the `clicks`/`impressions`/`position`
columns in place and create them (as NaN) when missing.  Only when both
input frames already carry those three columns with numeric-or-NaN cells
are the inputs left unchanged. -/
theorem c9_no_mutation_when_clean (dfC dfP : MomDF) (lvl : Bool)
    (h1 : dfC.cleanMetrics) (h2 : dfP.cleanMetrics) :
    (calculate_mom_metrics dfC dfP lvl).1 = dfC ∧
      (calculate_mom_metrics dfC dfP lvl).2.1 = dfP := by
  constructor
  · rw [calc_mom_fst]
    exact aggregate_fst_clean dfC _ h1
  · rw [calc_mom_snd]
    exact aggregate_fst_clean dfP _ h2

/-- C9 witness: on clean frames the inputs come back unchanged. -/
theorem c9_witness :
    (calculate_mom_metrics c9PrevDF c9PrevDF false).1 = c9PrevDF ∧
      (calculate_mom_metrics c9PrevDF c9PrevDF false).2.1 = c9PrevDF :=
  c9_no_mutation_when_clean c9PrevDF c9PrevDF false
    (by simp only [MomDF.cleanMetrics]; decide)
    (by simp only [MomDF.cleanMetrics]; decide)

/-- C10: the entry points never propagate an exception.  (i) Whenever the
`try` body of `calculate_mom_metrics` raises, the handler at lines 330-332
returns the empty DataFrame.  (ii) The internal failure path of
`process_gsc_api_response` in which no `date` column can be produced
(lines 218-220) likewise returns an empty frame rather than raising. -/
theorem c10_errors_absorbed :
    (∀ (dfC dfP : MomDF) (lvl : Bool) (e : PdErr),
        (calcMomTry dfC dfP lvl).2 = Except.error e →
          (calculate_mom_metrics dfC dfP lvl).2.2 = [])
    ∧ (∀ (api_data : List RawRow) (dims : List String),
        lastIdxOf "date" dims = none →
          process_gsc_api_response api_data dims = []) := by
  constructor
  · intro dfC dfP lvl e h
    unfold calculate_mom_metrics
    rcases ht : calcMomTry dfC dfP lvl with ⟨⟨c, p⟩, r⟩
    rw [ht] at h
    simp only at h
    rw [h]
  · intro api dims h
    unfold process_gsc_api_response
    by_cases he : api.isEmpty
    · simp [he]
    · simp [he, h]

/-- C10 witness: a nonempty current frame makes the metric loop raise and
the caller receives an empty table; a dimension list without `date` makes
the normalizer return an empty frame. -/
theorem c10_witness :
    ((calcMomTry c10Cur emptyMomDF false).2 = Except.error PdErr.typeError
      ∧ (calculate_mom_metrics c10Cur emptyMomDF false).2.2 = [])
    ∧ (lastIdxOf "date" ["query"] = none
      ∧ process_gsc_api_response [c8Good] ["query"] = []) := by
  have h1 : (calcMomTry c10Cur emptyMomDF false).2 =
      Except.error PdErr.typeError := rfl
  have h2 : lastIdxOf "date" ["query"] = none := by decide
  exact ⟨⟨h1, c10_errors_absorbed.1 c10Cur emptyMomDF false PdErr.typeError h1⟩,
    ⟨h2, c10_errors_absorbed.2 [c8Good] ["query"] h2⟩⟩
